import Mathlib

/-!
Shallow embedding of the pyorthanc repository: the `Orthanc` REST wrapper
(src/orthanc/orthanc.py) and the `RemoteModality` convenience layer
(src/pyorthanc/remote.py).  An HTTP request issued through the `requests`
library is modelled as an `HttpCall` value; the response produced by the
HTTP client is abstracted as an arbitrary function `client : HttpCall → ρ`.
Each Python method is translated into a Lean function returning a
`MethodResult`: the value the method returns, the list of HTTP calls it
issued (in order), and the state of the object afterwards.
-/

namespace Pyorthanc

/-- HTTP verbs used by the wrapper. -/
inductive Verb
  | GET
  | POST
  | PUT
  | DELETE
deriving DecidableEq

/-- Python dictionaries are opaque to this code: it only passes them
through, so an association list is a faithful stand-in. -/
abbrev Dict := List (String × String)

/-- Extra keyword arguments (for example timeout), likewise opaque. -/
abbrev Kwargs := List (String × String)

/-- `requests.auth.HTTPBasicAuth` credentials object. -/
structure HTTPBasicAuth where
  username : String
  password : String
deriving DecidableEq

/-- One HTTP request handed to the `requests` library: verb, route and the
keyword arguments `params`, `data`, `json`, `auth` plus the forwarded
extra kwargs.  An absent keyword argument is `none`. -/
structure HttpCall where
  verb : Verb
  route : String
  params : Option Dict
  data : Option Dict
  json : Option Dict
  auth : Option HTTPBasicAuth
  kwargs : Kwargs
deriving DecidableEq

namespace requests

/-- `requests.get(route, params=params, auth=auth, **kwargs)`. -/
def get (route : String) (params : Option Dict) (auth : Option HTTPBasicAuth)
    (kwargs : Kwargs) : HttpCall :=
  ⟨Verb.GET, route, params, none, none, auth, kwargs⟩

/-- `requests.delete(route, auth=auth, **kwargs)`. -/
def delete (route : String) (auth : Option HTTPBasicAuth)
    (kwargs : Kwargs) : HttpCall :=
  ⟨Verb.DELETE, route, none, none, none, auth, kwargs⟩

/-- `requests.post(route, auth=auth, data=data, json=json, **kwargs)`. -/
def post (route : String) (auth : Option HTTPBasicAuth)
    (data : Option Dict) (json : Option Dict) (kwargs : Kwargs) : HttpCall :=
  ⟨Verb.POST, route, none, data, json, auth, kwargs⟩

/-- `requests.put(route, data, auth=auth, json=json, **kwargs)`. -/
def put (route : String) (auth : Option HTTPBasicAuth)
    (data : Option Dict) (json : Option Dict) (kwargs : Kwargs) : HttpCall :=
  ⟨Verb.PUT, route, none, data, json, auth, kwargs⟩

end requests

/-- State of an `Orthanc` object: the three instance fields assigned by
`__init__` and `setup_credentials`. -/
structure Orthanc where
  _orthanc_url : String
  _credentials_are_set : Bool
  _credentials : Option HTTPBasicAuth
deriving DecidableEq

/-- `Orthanc.__init__(orthanc_url)`. -/
def Orthanc.new (orthanc_url : String) : Orthanc :=
  ⟨orthanc_url, false, none⟩

/-- `Orthanc.setup_credentials(username, password)`. -/
def Orthanc.setup_credentials (self : Orthanc) (username password : String) :
    Orthanc :=
  ⟨self._orthanc_url, true, some ⟨username, password⟩⟩

/-- Result of running one method: the returned value, the HTTP calls made
in order, and the object state afterwards. -/
structure MethodResult (ρ : Type) where
  ret : ρ
  calls : List HttpCall
  final : Orthanc

/-- `Orthanc.get_request(route, params, **kwargs)`. -/
def Orthanc.get_request {ρ : Type} (client : HttpCall → ρ) (self : Orthanc)
    (route : String) (params : Option Dict) (kwargs : Kwargs) :
    MethodResult ρ :=
  if self._credentials_are_set then
    let c := requests.get route params self._credentials kwargs
    ⟨client c, [c], self⟩
  else
    let c := requests.get route params none kwargs
    ⟨client c, [c], self⟩

/-- `Orthanc.delete_request(route, **kwargs)`. -/
def Orthanc.delete_request {ρ : Type} (client : HttpCall → ρ) (self : Orthanc)
    (route : String) (kwargs : Kwargs) : MethodResult ρ :=
  if self._credentials_are_set then
    let c := requests.delete route self._credentials kwargs
    ⟨client c, [c], self⟩
  else
    let c := requests.delete route none kwargs
    ⟨client c, [c], self⟩

/-- `Orthanc.post_request(route, data, json, **kwargs)`. -/
def Orthanc.post_request {ρ : Type} (client : HttpCall → ρ) (self : Orthanc)
    (route : String) (data : Option Dict) (json : Option Dict)
    (kwargs : Kwargs) : MethodResult ρ :=
  if self._credentials_are_set then
    let c := requests.post route self._credentials data json kwargs
    ⟨client c, [c], self⟩
  else
    let c := requests.post route none data json kwargs
    ⟨client c, [c], self⟩

/-- `Orthanc.put_request(route, data, json, **kwargs)`. -/
def Orthanc.put_request {ρ : Type} (client : HttpCall → ρ) (self : Orthanc)
    (route : String) (data : Option Dict) (json : Option Dict)
    (kwargs : Kwargs) : MethodResult ρ :=
  if self._credentials_are_set then
    let c := requests.put route self._credentials data json kwargs
    ⟨client c, [c], self⟩
  else
    let c := requests.put route none data json kwargs
    ⟨client c, [c], self⟩

/-- `Orthanc.get_patients(params, **kwargs)`. -/
def Orthanc.get_patients {ρ : Type} (client : HttpCall → ρ) (self : Orthanc)
    (params : Option Dict) (kwargs : Kwargs) : MethodResult ρ :=
  self.get_request client (self._orthanc_url ++ "/patients") params kwargs

/-- `Orthanc.get_patients_identifier(identifier, params, **kwargs)`. -/
def Orthanc.get_patients_identifier {ρ : Type} (client : HttpCall → ρ)
    (self : Orthanc) (identifier : String) (params : Option Dict)
    (kwargs : Kwargs) : MethodResult ρ :=
  self.get_request client (self._orthanc_url ++ "/patients/" ++ identifier)
    params kwargs

/-- `Orthanc.delete_patients_identifier(identifier, **kwargs)`. -/
def Orthanc.delete_patients_identifier {ρ : Type} (client : HttpCall → ρ)
    (self : Orthanc) (identifier : String) (kwargs : Kwargs) :
    MethodResult ρ :=
  self.delete_request client (self._orthanc_url ++ "/patients/" ++ identifier)
    kwargs

/-- `Orthanc.get_instances_identifier_tags(identifier, params, **kwargs)`. -/
def Orthanc.get_instances_identifier_tags {ρ : Type} (client : HttpCall → ρ)
    (self : Orthanc) (identifier : String) (params : Option Dict)
    (kwargs : Kwargs) : MethodResult ρ :=
  self.get_request client
    (self._orthanc_url ++ "/instances/" ++ identifier ++ "/tags")
    params kwargs

/-- `Orthanc.get_instances_identifier_content(identifier, params, **kwargs)`. -/
def Orthanc.get_instances_identifier_content {ρ : Type}
    (client : HttpCall → ρ) (self : Orthanc) (identifier : String)
    (params : Option Dict) (kwargs : Kwargs) : MethodResult ρ :=
  self.get_request client
    (self._orthanc_url ++ "/instances/" ++ identifier ++ "/content/")
    params kwargs

/-- `Orthanc.get_instances_identifier_content_group_element_index`. -/
def Orthanc.get_instances_identifier_content_group_element_index {ρ : Type}
    (client : HttpCall → ρ) (self : Orthanc) (identifier : String)
    (group_element : String) (index : String) (params : Option Dict)
    (kwargs : Kwargs) : MethodResult ρ :=
  self.get_request client
    (self._orthanc_url ++ "/instances/" ++ identifier ++ "/content/" ++
      group_element ++ "/" ++ index ++ "/...")
    params kwargs

/-- `Orthanc.get_attachments(resource_type, identifier, params, **kwargs)`. -/
def Orthanc.get_attachments {ρ : Type} (client : HttpCall → ρ)
    (self : Orthanc) (resource_type : String) (identifier : String)
    (params : Option Dict) (kwargs : Kwargs) : MethodResult ρ :=
  self.get_request client
    (self._orthanc_url ++ "/" ++ resource_type ++ "/" ++ identifier ++
      "/attachments")
    params kwargs

/-- `Orthanc.get_attachment_by_name(resource_type, identifier, name,
params, **kwargs)`. -/
def Orthanc.get_attachment_by_name {ρ : Type} (client : HttpCall → ρ)
    (self : Orthanc) (resource_type : String) (identifier : String)
    (name : String) (params : Option Dict) (kwargs : Kwargs) :
    MethodResult ρ :=
  self.get_request client
    (self._orthanc_url ++ "/" ++ resource_type ++ "/" ++ identifier ++
      "/attachments/" ++ name)
    params kwargs

/-- `Orthanc.get_resource_type_identifier_metadata(resource_type,
identifier, params, **kwargs)`. -/
def Orthanc.get_resource_type_identifier_metadata {ρ : Type}
    (client : HttpCall → ρ) (self : Orthanc) (resource_type : String)
    (identifier : String) (params : Option Dict) (kwargs : Kwargs) :
    MethodResult ρ :=
  self.get_request client
    (self._orthanc_url ++ "/" ++ resource_type ++ "/" ++ identifier ++
      "/metadata")
    params kwargs

/-- `Orthanc.post_tools_find(data, json, **kwargs)`. -/
def Orthanc.post_tools_find {ρ : Type} (client : HttpCall → ρ)
    (self : Orthanc) (data json : Option Dict) (kwargs : Kwargs) :
    MethodResult ρ :=
  self.post_request client (self._orthanc_url ++ "/tools/find")
    data json kwargs

/-- `Orthanc.post_tools_shutdown(data, json, **kwargs)`. -/
def Orthanc.post_tools_shutdown {ρ : Type} (client : HttpCall → ρ)
    (self : Orthanc) (data json : Option Dict) (kwargs : Kwargs) :
    MethodResult ρ :=
  self.post_request client (self._orthanc_url ++ "/tools/shutdown")
    data json kwargs

/-- `Orthanc.post_modalities_dicom_echo(dicom, data, json, **kwargs)`. -/
def Orthanc.post_modalities_dicom_echo {ρ : Type} (client : HttpCall → ρ)
    (self : Orthanc) (dicom : String) (data json : Option Dict)
    (kwargs : Kwargs) : MethodResult ρ :=
  self.post_request client
    (self._orthanc_url ++ "/modalities/" ++ dicom ++ "/echo")
    data json kwargs

/-- `Orthanc.post_modalities_dicom_move(dicom, data, json, **kwargs)`. -/
def Orthanc.post_modalities_dicom_move {ρ : Type} (client : HttpCall → ρ)
    (self : Orthanc) (dicom : String) (data json : Option Dict)
    (kwargs : Kwargs) : MethodResult ρ :=
  self.post_request client
    (self._orthanc_url ++ "/modalities/" ++ dicom ++ "/move")
    data json kwargs

/-- `Orthanc.post_modalities_dicom_query(dicom, data, json, **kwargs)`. -/
def Orthanc.post_modalities_dicom_query {ρ : Type} (client : HttpCall → ρ)
    (self : Orthanc) (dicom : String) (data json : Option Dict)
    (kwargs : Kwargs) : MethodResult ρ :=
  self.post_request client
    (self._orthanc_url ++ "/modalities/" ++ dicom ++ "/query")
    data json kwargs

/-- `Orthanc.put_modalities_dicom(dicom, data, json, **kwargs)`. -/
def Orthanc.put_modalities_dicom {ρ : Type} (client : HttpCall → ρ)
    (self : Orthanc) (dicom : String) (data json : Option Dict)
    (kwargs : Kwargs) : MethodResult ρ :=
  self.put_request client (self._orthanc_url ++ "/modalities/" ++ dicom)
    data json kwargs

/-- `Orthanc.post_queries_identifier_retrieve(identifier, data, json,
**kwargs)`. -/
def Orthanc.post_queries_identifier_retrieve {ρ : Type}
    (client : HttpCall → ρ) (self : Orthanc) (identifier : String)
    (data json : Option Dict) (kwargs : Kwargs) : MethodResult ρ :=
  self.post_request client
    (self._orthanc_url ++ "/queries/" ++ identifier ++ "/retrieve")
    data json kwargs

/-- The auth value the verb helpers attach: the stored credentials when
`_credentials_are_set`, otherwise no auth argument. -/
def effectiveAuth (self : Orthanc) : Option HTTPBasicAuth :=
  cond self._credentials_are_set self._credentials none

theorem get_request_eq {ρ : Type} (client : HttpCall → ρ) (s : Orthanc)
    (route : String) (params : Option Dict) (kwargs : Kwargs) :
    Orthanc.get_request client s route params kwargs =
      ⟨client (requests.get route params (effectiveAuth s) kwargs),
        [requests.get route params (effectiveAuth s) kwargs], s⟩ := by
  unfold Orthanc.get_request effectiveAuth
  cases h : s._credentials_are_set <;> simp [h]

theorem delete_request_eq {ρ : Type} (client : HttpCall → ρ) (s : Orthanc)
    (route : String) (kwargs : Kwargs) :
    Orthanc.delete_request client s route kwargs =
      ⟨client (requests.delete route (effectiveAuth s) kwargs),
        [requests.delete route (effectiveAuth s) kwargs], s⟩ := by
  unfold Orthanc.delete_request effectiveAuth
  cases h : s._credentials_are_set <;> simp [h]

theorem post_request_eq {ρ : Type} (client : HttpCall → ρ) (s : Orthanc)
    (route : String) (data json : Option Dict) (kwargs : Kwargs) :
    Orthanc.post_request client s route data json kwargs =
      ⟨client (requests.post route (effectiveAuth s) data json kwargs),
        [requests.post route (effectiveAuth s) data json kwargs], s⟩ := by
  unfold Orthanc.post_request effectiveAuth
  cases h : s._credentials_are_set <;> simp [h]

theorem put_request_eq {ρ : Type} (client : HttpCall → ρ) (s : Orthanc)
    (route : String) (data json : Option Dict) (kwargs : Kwargs) :
    Orthanc.put_request client s route data json kwargs =
      ⟨client (requests.put route (effectiveAuth s) data json kwargs),
        [requests.put route (effectiveAuth s) data json kwargs], s⟩ := by
  unfold Orthanc.put_request effectiveAuth
  cases h : s._credentials_are_set <;> simp [h]

/-- Modelled from the spec: the pyorthanc package Orthanc method
`echo_to_modality` called by `RemoteModality.echo` is not under src (only
its caller src/pyorthanc/remote.py is).  Per the spec, C-ECHO is proxied
as the REST call POST {orthanc_url}/modalities/{modality}/echo with no
other processing, and reported as a bool derived from the response
(oracle `ok`). -/
def Orthanc.echo_to_modality (ok : HttpCall → Bool) (self : Orthanc)
    (modality : String) : MethodResult Bool :=
  self.post_request ok
    (self._orthanc_url ++ "/modalities/" ++ modality ++ "/echo")
    none none []

/-- Modelled from the spec: the pyorthanc package Orthanc method
`query_on_modality` called by `RemoteModality.query` is not under src.
Per the spec, C-FIND is proxied as the single REST call
POST {orthanc_url}/modalities/{modality}/query carrying the given data
dictionary, whose response is returned as is. -/
def Orthanc.query_on_modality {ρ : Type} (client : HttpCall → ρ)
    (self : Orthanc) (modality : String) (data : Option Dict) :
    MethodResult ρ :=
  self.post_request client
    (self._orthanc_url ++ "/modalities/" ++ modality ++ "/query")
    data none []

/-- Modelled from the spec: the pyorthanc package Orthanc method
`move_from_modality` called by `RemoteModality.retrieve` is not under
src.  Per the spec, C-MOVE is proxied as the single REST call
POST {orthanc_url}/modalities/{modality}/move carrying the given data
dictionary, reported as a bool derived from the response (oracle `ok`). -/
def Orthanc.move_from_modality (ok : HttpCall → Bool) (self : Orthanc)
    (modality : String) (data : Option Dict) : MethodResult Bool :=
  self.post_request ok
    (self._orthanc_url ++ "/modalities/" ++ modality ++ "/move")
    data none []

/-- Modelled from the spec: the pyorthanc package Orthanc method
`move_query_results_to_given_modality` called by `RemoteModality.move` is
not under src.  Per the spec it issues the single REST call
POST {orthanc_url}/queries/{query_identifier}/retrieve carrying the given
data dictionary, reported as a bool derived from the response. -/
def Orthanc.move_query_results_to_given_modality (ok : HttpCall → Bool)
    (self : Orthanc) (query_identifier : String) (data : Option Dict) :
    MethodResult Bool :=
  self.post_request ok
    (self._orthanc_url ++ "/queries/" ++ query_identifier ++ "/retrieve")
    data none []

/-- `RemoteModality.__init__(orthanc, modality)`:
src/pyorthanc/remote.py. -/
structure RemoteModality where
  orthanc : Orthanc
  modality : String

/-- `RemoteModality.echo()`. -/
def RemoteModality.echo (ok : HttpCall → Bool) (self : RemoteModality) :
    MethodResult Bool :=
  self.orthanc.echo_to_modality ok self.modality

/-- `RemoteModality.query(data)`. -/
def RemoteModality.query {ρ : Type} (client : HttpCall → ρ)
    (self : RemoteModality) (data : Dict) : MethodResult ρ :=
  self.orthanc.query_on_modality client self.modality (some data)

/-- `RemoteModality.retrieve(data)`. -/
def RemoteModality.retrieve (ok : HttpCall → Bool) (self : RemoteModality)
    (data : Dict) : MethodResult Bool :=
  self.orthanc.move_from_modality ok self.modality (some data)

/-- `RemoteModality.move(query_identifier, cmove_data)`. -/
def RemoteModality.move (ok : HttpCall → Bool) (self : RemoteModality)
    (query_identifier : String) (cmove_data : Dict) : MethodResult Bool :=
  self.orthanc.move_query_results_to_given_modality ok query_identifier
    (some cmove_data)

/-- One operation of a client session on an Orthanc object: the single
mutator `setup_credentials` together with a selection of the embedded
endpoint methods. -/
inductive Op
  | setup_credentials (username password : String)
  | get_patients (params : Option Dict) (kwargs : Kwargs)
  | get_patients_identifier (identifier : String) (params : Option Dict)
      (kwargs : Kwargs)
  | delete_patients_identifier (identifier : String) (kwargs : Kwargs)
  | post_tools_find (data json : Option Dict) (kwargs : Kwargs)
  | put_modalities_dicom (dicom : String) (data json : Option Dict)
      (kwargs : Kwargs)
deriving DecidableEq

/-- The state of the Orthanc object after one operation. -/
def Orthanc.apply (self : Orthanc) : Op → Orthanc
  | Op.setup_credentials u p => self.setup_credentials u p
  | Op.get_patients params kw => (Orthanc.get_patients id self params kw).final
  | Op.get_patients_identifier i params kw =>
      (Orthanc.get_patients_identifier id self i params kw).final
  | Op.delete_patients_identifier i kw =>
      (Orthanc.delete_patients_identifier id self i kw).final
  | Op.post_tools_find d j kw => (Orthanc.post_tools_find id self d j kw).final
  | Op.put_modalities_dicom m d j kw =>
      (Orthanc.put_modalities_dicom id self m d j kw).final

/-- The state of the Orthanc object after a sequence of operations. -/
def Orthanc.run (self : Orthanc) (ops : List Op) : Orthanc :=
  ops.foldl Orthanc.apply self

/-- Whether an operation is a `setup_credentials` call. -/
def Op.isSetup : Op → Bool
  | Op.setup_credentials _ _ => true
  | _ => false

/-- Folding step: the credentials after one more operation, given the
credentials before it. -/
def credStep (acc : Option HTTPBasicAuth) : Op → Option HTTPBasicAuth
  | Op.setup_credentials u p => some ⟨u, p⟩
  | _ => acc

/-- The credentials installed by the most recent `setup_credentials` in
`ops`, starting from `a`. -/
def lastSetupFrom (a : Option HTTPBasicAuth) (ops : List Op) :
    Option HTTPBasicAuth :=
  ops.foldl credStep a

/-- The credentials installed by the most recent `setup_credentials` in
`ops`, if any. -/
def lastSetup (ops : List Op) : Option HTTPBasicAuth :=
  lastSetupFrom none ops

/-- The state after a fresh construction followed by `ops`. -/
def stateAfter (url : String) (ops : List Op) : Orthanc :=
  (Orthanc.new url).run ops

theorem apply_credentials (s : Orthanc) (op : Op) :
    (s.apply op)._credentials = credStep s._credentials op := by
  cases op <;>
    simp [Orthanc.apply, Orthanc.setup_credentials, credStep,
      Orthanc.get_patients, Orthanc.get_patients_identifier,
      Orthanc.delete_patients_identifier, Orthanc.post_tools_find,
      Orthanc.put_modalities_dicom, get_request_eq, delete_request_eq,
      post_request_eq, put_request_eq]

theorem apply_flag (s : Orthanc) (op : Op) :
    (s.apply op)._credentials_are_set =
      (s._credentials_are_set || op.isSetup) := by
  cases op <;>
    simp [Orthanc.apply, Orthanc.setup_credentials, Op.isSetup,
      Orthanc.get_patients, Orthanc.get_patients_identifier,
      Orthanc.delete_patients_identifier, Orthanc.post_tools_find,
      Orthanc.put_modalities_dicom, get_request_eq, delete_request_eq,
      post_request_eq, put_request_eq]

theorem run_credentials (ops : List Op) :
    ∀ s : Orthanc,
      (s.run ops)._credentials = lastSetupFrom s._credentials ops := by
  induction ops with
  | nil => intro s; rfl
  | cons op rest ih =>
      intro s
      show ((s.apply op).run rest)._credentials = _
      rw [ih, apply_credentials]
      rfl

theorem run_flag (ops : List Op) :
    ∀ s : Orthanc,
      (s.run ops)._credentials_are_set =
        (s._credentials_are_set || ops.any Op.isSetup) := by
  induction ops with
  | nil => intro s; simp [Orthanc.run]
  | cons op rest ih =>
      intro s
      show ((s.apply op).run rest)._credentials_are_set = _
      rw [ih, apply_flag]
      simp [List.any_cons, Bool.or_assoc]

theorem lastSetupFrom_isSome (ops : List Op) :
    ∀ a : Option HTTPBasicAuth,
      (lastSetupFrom a ops).isSome = (a.isSome || ops.any Op.isSetup) := by
  induction ops with
  | nil => intro a; simp [lastSetupFrom]
  | cons op rest ih =>
      intro a
      show (lastSetupFrom (credStep a op) rest).isSome = _
      rw [ih]
      cases op <;> simp [credStep, Op.isSetup, Bool.or_assoc]

theorem lastSetup_isSome (ops : List Op) :
    (lastSetup ops).isSome = ops.any Op.isSetup := by
  rw [lastSetup, lastSetupFrom_isSome]
  simp

theorem stateAfter_credentials (url : String) (ops : List Op) :
    (stateAfter url ops)._credentials = lastSetup ops := by
  rw [stateAfter, Orthanc.run, ← Orthanc.run, run_credentials]
  rfl

theorem stateAfter_flag (url : String) (ops : List Op) :
    (stateAfter url ops)._credentials_are_set = ops.any Op.isSetup := by
  rw [stateAfter, Orthanc.run, ← Orthanc.run, run_flag]
  rfl

theorem effectiveAuth_stateAfter (url : String) (ops : List Op) :
    effectiveAuth (stateAfter url ops) = lastSetup ops := by
  rw [effectiveAuth, stateAfter_credentials, stateAfter_flag]
  cases h : ops.any Op.isSetup with
  | true => rfl
  | false =>
      have hs : (lastSetup ops).isSome = false := by rw [lastSetup_isSome, h]
      cases hc : lastSetup ops with
      | none => rfl
      | some c => rw [hc] at hs; simp at hs

/-- C1: each RemoteModality convenience method issues the corresponding
REST call through the wrapped Orthanc object: echo posts to
/modalities/{modality}/echo and returns a bool derived from the response,
query posts the data to /modalities/{modality}/query, retrieve posts the
data to /modalities/{modality}/move, and move posts the cmove data to
/queries/{query_identifier}/retrieve; each flow is exactly the stated
single chained HTTP call with no other processing. -/
theorem C1_remote_modality_flow (ok : HttpCall → Bool) (ρ : Type)
    (client : HttpCall → ρ) (o : Orthanc) (m qid : String)
    (data cmove : Dict) :
    (RemoteModality.echo ok ⟨o, m⟩).calls =
        [requests.post (o._orthanc_url ++ "/modalities/" ++ m ++ "/echo")
          (effectiveAuth o) none none []] ∧
    (RemoteModality.echo ok ⟨o, m⟩).ret =
        ok (requests.post (o._orthanc_url ++ "/modalities/" ++ m ++ "/echo")
          (effectiveAuth o) none none []) ∧
    (RemoteModality.query client ⟨o, m⟩ data).calls =
        [requests.post (o._orthanc_url ++ "/modalities/" ++ m ++ "/query")
          (effectiveAuth o) (some data) none []] ∧
    (RemoteModality.query client ⟨o, m⟩ data).ret =
        client (requests.post
          (o._orthanc_url ++ "/modalities/" ++ m ++ "/query")
          (effectiveAuth o) (some data) none []) ∧
    (RemoteModality.retrieve ok ⟨o, m⟩ data).calls =
        [requests.post (o._orthanc_url ++ "/modalities/" ++ m ++ "/move")
          (effectiveAuth o) (some data) none []] ∧
    (RemoteModality.retrieve ok ⟨o, m⟩ data).ret =
        ok (requests.post (o._orthanc_url ++ "/modalities/" ++ m ++ "/move")
          (effectiveAuth o) (some data) none []) ∧
    (RemoteModality.move ok ⟨o, m⟩ qid cmove).calls =
        [requests.post
          (o._orthanc_url ++ "/queries/" ++ qid ++ "/retrieve")
          (effectiveAuth o) (some cmove) none []] ∧
    (RemoteModality.move ok ⟨o, m⟩ qid cmove).ret =
        ok (requests.post
          (o._orthanc_url ++ "/queries/" ++ qid ++ "/retrieve")
          (effectiveAuth o) (some cmove) none []) := by
  simp [RemoteModality.echo, RemoteModality.query, RemoteModality.retrieve,
    RemoteModality.move, Orthanc.echo_to_modality, Orthanc.query_on_modality,
    Orthanc.move_from_modality,
    Orthanc.move_query_results_to_given_modality, post_request_eq]

/-- C2: every HTTP verb helper attaches the stored HTTP Basic credentials
to the outgoing request if and only if setup_credentials has been called
on the object before the request (the attached auth is the most recently
installed credentials, present exactly when some setup_credentials
occurred in the session); otherwise the request carries no auth
argument. -/
theorem C2_credentials_iff_setup (url : String) (ops : List Op)
    (route : String) (params data json : Option Dict) (kwargs : Kwargs) :
    ((stateAfter url ops).get_request id route params kwargs).ret.auth =
        lastSetup ops ∧
    ((stateAfter url ops).delete_request id route kwargs).ret.auth =
        lastSetup ops ∧
    ((stateAfter url ops).post_request id route data json kwargs).ret.auth =
        lastSetup ops ∧
    ((stateAfter url ops).put_request id route data json kwargs).ret.auth =
        lastSetup ops ∧
    (lastSetup ops).isSome = ops.any Op.isSetup := by
  refine ⟨?_, ?_, ?_, ?_, lastSetup_isSome ops⟩ <;>
    simp [get_request_eq, delete_request_eq, post_request_eq,
      put_request_eq, requests.get, requests.delete, requests.post,
      requests.put, effectiveAuth_stateAfter]

/-- C3: the endpoint methods build exactly the mirrored Orthanc REST
path: get_patients_identifier issues GET {orthanc_url}/patients/{id},
get_instances_identifier_tags issues GET
{orthanc_url}/instances/{id}/tags, post_tools_find issues POST
{orthanc_url}/tools/find, and the verb used matches the method name. -/
theorem C3_mirrored_routes (ρ : Type) (client : HttpCall → ρ) (s : Orthanc)
    (identifier : String) (params data json : Option Dict)
    (kwargs : Kwargs) :
    (Orthanc.get_patients_identifier client s identifier params
        kwargs).calls =
      [requests.get (s._orthanc_url ++ "/patients/" ++ identifier) params
        (effectiveAuth s) kwargs] ∧
    ((Orthanc.get_patients_identifier client s identifier params
        kwargs).calls.map HttpCall.verb = [Verb.GET]) ∧
    (Orthanc.get_instances_identifier_tags client s identifier params
        kwargs).calls =
      [requests.get
        (s._orthanc_url ++ "/instances/" ++ identifier ++ "/tags") params
        (effectiveAuth s) kwargs] ∧
    ((Orthanc.get_instances_identifier_tags client s identifier params
        kwargs).calls.map HttpCall.verb = [Verb.GET]) ∧
    (Orthanc.post_tools_find client s data json kwargs).calls =
      [requests.post (s._orthanc_url ++ "/tools/find") (effectiveAuth s)
        data json kwargs] ∧
    ((Orthanc.post_tools_find client s data json kwargs).calls.map
        HttpCall.verb = [Verb.POST]) := by
  simp [Orthanc.get_patients_identifier,
    Orthanc.get_instances_identifier_tags, Orthanc.post_tools_find,
    get_request_eq, post_request_eq, requests.get, requests.post]

/-- C4: for every client response type and every response value the
client produces (arbitrary ρ and client, hence any status code), each
verb helper and endpoint method returns exactly the value the HTTP client
produced for its single request, with no inspection, translation, retry
or recovery. -/
theorem C4_response_returned_unchanged (ρ : Type) (client : HttpCall → ρ)
    (s : Orthanc) (route identifier dicom : String)
    (params data json : Option Dict) (kwargs : Kwargs) :
    (s.get_request client route params kwargs).ret =
        client (requests.get route params (effectiveAuth s) kwargs) ∧
    (s.delete_request client route kwargs).ret =
        client (requests.delete route (effectiveAuth s) kwargs) ∧
    (s.post_request client route data json kwargs).ret =
        client (requests.post route (effectiveAuth s) data json kwargs) ∧
    (s.put_request client route data json kwargs).ret =
        client (requests.put route (effectiveAuth s) data json kwargs) ∧
    (Orthanc.get_patients_identifier client s identifier params
        kwargs).ret =
      client (requests.get (s._orthanc_url ++ "/patients/" ++ identifier)
        params (effectiveAuth s) kwargs) ∧
    (Orthanc.delete_patients_identifier client s identifier kwargs).ret =
      client (requests.delete
        (s._orthanc_url ++ "/patients/" ++ identifier)
        (effectiveAuth s) kwargs) ∧
    (Orthanc.post_tools_find client s data json kwargs).ret =
      client (requests.post (s._orthanc_url ++ "/tools/find")
        (effectiveAuth s) data json kwargs) ∧
    (Orthanc.put_modalities_dicom client s dicom data json kwargs).ret =
      client (requests.put (s._orthanc_url ++ "/modalities/" ++ dicom)
        (effectiveAuth s) data json kwargs) := by
  simp [Orthanc.get_patients_identifier,
    Orthanc.delete_patients_identifier, Orthanc.post_tools_find,
    Orthanc.put_modalities_dicom, get_request_eq, delete_request_eq,
    post_request_eq, put_request_eq]

/-- C5: every embedded endpoint method performs exactly one HTTP call per
invocation and leaves the object state unchanged: the fields
_orthanc_url, _credentials and _credentials_are_set are identical before
and after any endpoint call, the final state being the input state
itself. -/
theorem C5_single_call_state_unchanged (ρ : Type) (client : HttpCall → ρ)
    (s : Orthanc) (identifier group_element index name resource_type
      dicom : String) (params data json : Option Dict) (kwargs : Kwargs) :
    ((Orthanc.get_patients client s params kwargs).calls.length = 1 ∧
      (Orthanc.get_patients client s params kwargs).final = s) ∧
    ((Orthanc.get_patients_identifier client s identifier params
        kwargs).calls.length = 1 ∧
      (Orthanc.get_patients_identifier client s identifier params
        kwargs).final = s) ∧
    ((Orthanc.delete_patients_identifier client s identifier
        kwargs).calls.length = 1 ∧
      (Orthanc.delete_patients_identifier client s identifier
        kwargs).final = s) ∧
    ((Orthanc.get_instances_identifier_tags client s identifier params
        kwargs).calls.length = 1 ∧
      (Orthanc.get_instances_identifier_tags client s identifier params
        kwargs).final = s) ∧
    ((Orthanc.get_instances_identifier_content client s identifier params
        kwargs).calls.length = 1 ∧
      (Orthanc.get_instances_identifier_content client s identifier params
        kwargs).final = s) ∧
    ((Orthanc.get_instances_identifier_content_group_element_index client
        s identifier group_element index params kwargs).calls.length = 1 ∧
      (Orthanc.get_instances_identifier_content_group_element_index client
        s identifier group_element index params kwargs).final = s) ∧
    ((Orthanc.get_attachments client s resource_type identifier params
        kwargs).calls.length = 1 ∧
      (Orthanc.get_attachments client s resource_type identifier params
        kwargs).final = s) ∧
    ((Orthanc.get_attachment_by_name client s resource_type identifier
        name params kwargs).calls.length = 1 ∧
      (Orthanc.get_attachment_by_name client s resource_type identifier
        name params kwargs).final = s) ∧
    ((Orthanc.get_resource_type_identifier_metadata client s resource_type
        identifier params kwargs).calls.length = 1 ∧
      (Orthanc.get_resource_type_identifier_metadata client s
        resource_type identifier params kwargs).final = s) ∧
    ((Orthanc.post_tools_find client s data json kwargs).calls.length =
        1 ∧
      (Orthanc.post_tools_find client s data json kwargs).final = s) ∧
    ((Orthanc.post_tools_shutdown client s data json
        kwargs).calls.length = 1 ∧
      (Orthanc.post_tools_shutdown client s data json kwargs).final =
        s) ∧
    ((Orthanc.post_modalities_dicom_echo client s dicom data json
        kwargs).calls.length = 1 ∧
      (Orthanc.post_modalities_dicom_echo client s dicom data json
        kwargs).final = s) ∧
    ((Orthanc.post_modalities_dicom_move client s dicom data json
        kwargs).calls.length = 1 ∧
      (Orthanc.post_modalities_dicom_move client s dicom data json
        kwargs).final = s) ∧
    ((Orthanc.post_modalities_dicom_query client s dicom data json
        kwargs).calls.length = 1 ∧
      (Orthanc.post_modalities_dicom_query client s dicom data json
        kwargs).final = s) ∧
    ((Orthanc.put_modalities_dicom client s dicom data json
        kwargs).calls.length = 1 ∧
      (Orthanc.put_modalities_dicom client s dicom data json
        kwargs).final = s) ∧
    ((Orthanc.post_queries_identifier_retrieve client s identifier data
        json kwargs).calls.length = 1 ∧
      (Orthanc.post_queries_identifier_retrieve client s identifier data
        json kwargs).final = s) := by
  simp [Orthanc.get_patients, Orthanc.get_patients_identifier,
    Orthanc.delete_patients_identifier,
    Orthanc.get_instances_identifier_tags,
    Orthanc.get_instances_identifier_content,
    Orthanc.get_instances_identifier_content_group_element_index,
    Orthanc.get_attachments, Orthanc.get_attachment_by_name,
    Orthanc.get_resource_type_identifier_metadata,
    Orthanc.post_tools_find, Orthanc.post_tools_shutdown,
    Orthanc.post_modalities_dicom_echo, Orthanc.post_modalities_dicom_move,
    Orthanc.post_modalities_dicom_query, Orthanc.put_modalities_dicom,
    Orthanc.post_queries_identifier_retrieve, get_request_eq,
    delete_request_eq, post_request_eq, put_request_eq]

/-- C6: the payload dictionaries (params, data, json) and the extra
keyword arguments supplied by the caller are forwarded on the single
issued HTTP call unmodified: the fields of the call equal the caller
supplied values for representative GET, POST and PUT endpoints. -/
theorem C6_payload_forwarded_unmodified (ρ : Type) (client : HttpCall → ρ)
    (s : Orthanc) (resource_type identifier dicom : String)
    (params data json : Option Dict) (kwargs : Kwargs) :
    ((Orthanc.get_attachments client s resource_type identifier params
        kwargs).calls.map HttpCall.params = [params]) ∧
    ((Orthanc.get_attachments client s resource_type identifier params
        kwargs).calls.map HttpCall.kwargs = [kwargs]) ∧
    ((Orthanc.get_patients client s params kwargs).calls.map
        HttpCall.params = [params]) ∧
    ((Orthanc.get_patients client s params kwargs).calls.map
        HttpCall.kwargs = [kwargs]) ∧
    ((Orthanc.post_tools_find client s data json kwargs).calls.map
        HttpCall.data = [data]) ∧
    ((Orthanc.post_tools_find client s data json kwargs).calls.map
        HttpCall.json = [json]) ∧
    ((Orthanc.post_tools_find client s data json kwargs).calls.map
        HttpCall.kwargs = [kwargs]) ∧
    ((Orthanc.put_modalities_dicom client s dicom data json
        kwargs).calls.map HttpCall.data = [data]) ∧
    ((Orthanc.put_modalities_dicom client s dicom data json
        kwargs).calls.map HttpCall.json = [json]) ∧
    ((Orthanc.put_modalities_dicom client s dicom data json
        kwargs).calls.map HttpCall.kwargs = [kwargs]) := by
  simp [Orthanc.get_attachments, Orthanc.get_patients,
    Orthanc.post_tools_find, Orthanc.put_modalities_dicom, get_request_eq,
    post_request_eq, put_request_eq, requests.get, requests.post,
    requests.put]

/-- C9: the two deviant endpoint URLs: get_instances_identifier_content
requests {orthanc_url}/instances/{id}/content/ with a trailing slash, and
get_instances_identifier_content_group_element_index requests
{orthanc_url}/instances/{id}/content/{group_element}/{index}/... where
the three dots are literal characters of the URL. -/
theorem C9_deviant_routes (ρ : Type) (client : HttpCall → ρ) (s : Orthanc)
    (identifier group_element index : String) (params : Option Dict)
    (kwargs : Kwargs) :
    (Orthanc.get_instances_identifier_content client s identifier params
        kwargs).calls =
      [requests.get
        (s._orthanc_url ++ "/instances/" ++ identifier ++ "/content/")
        params (effectiveAuth s) kwargs] ∧
    (Orthanc.get_instances_identifier_content_group_element_index client s
        identifier group_element index params kwargs).calls =
      [requests.get
        (s._orthanc_url ++ "/instances/" ++ identifier ++ "/content/" ++
          group_element ++ "/" ++ index ++ "/...")
        params (effectiveAuth s) kwargs] := by
  simp [Orthanc.get_instances_identifier_content,
    Orthanc.get_instances_identifier_content_group_element_index,
    get_request_eq]

/-- C10: the attachment and metadata methods never validate their
resource_type argument: for every string resource_type (and every
identifier and name) the strings are embedded verbatim in the URL and the
single request is issued, with no client side error (the methods are
total). -/
theorem C10_no_resource_type_validation (ρ : Type) (client : HttpCall → ρ)
    (s : Orthanc) (resource_type identifier name : String)
    (params : Option Dict) (kwargs : Kwargs) :
    (Orthanc.get_attachments client s resource_type identifier params
        kwargs).calls =
      [requests.get
        (s._orthanc_url ++ "/" ++ resource_type ++ "/" ++ identifier ++
          "/attachments") params (effectiveAuth s) kwargs] ∧
    (Orthanc.get_attachment_by_name client s resource_type identifier name
        params kwargs).calls =
      [requests.get
        (s._orthanc_url ++ "/" ++ resource_type ++ "/" ++ identifier ++
          "/attachments/" ++ name) params (effectiveAuth s) kwargs] ∧
    (Orthanc.get_resource_type_identifier_metadata client s resource_type
        identifier params kwargs).calls =
      [requests.get
        (s._orthanc_url ++ "/" ++ resource_type ++ "/" ++ identifier ++
          "/metadata") params (effectiveAuth s) kwargs] := by
  simp [Orthanc.get_attachments, Orthanc.get_attachment_by_name,
    Orthanc.get_resource_type_identifier_metadata, get_request_eq]

/-- C7: every embedded endpoint method delegates to exactly one of the
four generic verb helpers, and the route it passes is the orthanc_url
given to the constructor followed by a slash and the remainder of the
path. -/
theorem C7_delegation_and_url_shape (ρ : Type) (client : HttpCall → ρ)
    (s : Orthanc) (identifier group_element index name resource_type
      dicom : String) (params data json : Option Dict) (kwargs : Kwargs) :
    (∃ rest, Orthanc.get_patients client s params kwargs =
      s.get_request client (s._orthanc_url ++ "/" ++ rest) params
        kwargs) ∧
    (∃ rest, Orthanc.get_patients_identifier client s identifier params
        kwargs =
      s.get_request client (s._orthanc_url ++ "/" ++ rest) params
        kwargs) ∧
    (∃ rest, Orthanc.delete_patients_identifier client s identifier
        kwargs =
      s.delete_request client (s._orthanc_url ++ "/" ++ rest) kwargs) ∧
    (∃ rest, Orthanc.get_instances_identifier_tags client s identifier
        params kwargs =
      s.get_request client (s._orthanc_url ++ "/" ++ rest) params
        kwargs) ∧
    (∃ rest, Orthanc.get_instances_identifier_content client s identifier
        params kwargs =
      s.get_request client (s._orthanc_url ++ "/" ++ rest) params
        kwargs) ∧
    (∃ rest, Orthanc.get_instances_identifier_content_group_element_index
        client s identifier group_element index params kwargs =
      s.get_request client (s._orthanc_url ++ "/" ++ rest) params
        kwargs) ∧
    (∃ rest, Orthanc.get_attachments client s resource_type identifier
        params kwargs =
      s.get_request client (s._orthanc_url ++ "/" ++ rest) params
        kwargs) ∧
    (∃ rest, Orthanc.get_attachment_by_name client s resource_type
        identifier name params kwargs =
      s.get_request client (s._orthanc_url ++ "/" ++ rest) params
        kwargs) ∧
    (∃ rest, Orthanc.get_resource_type_identifier_metadata client s
        resource_type identifier params kwargs =
      s.get_request client (s._orthanc_url ++ "/" ++ rest) params
        kwargs) ∧
    (∃ rest, Orthanc.post_tools_find client s data json kwargs =
      s.post_request client (s._orthanc_url ++ "/" ++ rest) data json
        kwargs) ∧
    (∃ rest, Orthanc.post_tools_shutdown client s data json kwargs =
      s.post_request client (s._orthanc_url ++ "/" ++ rest) data json
        kwargs) ∧
    (∃ rest, Orthanc.post_modalities_dicom_echo client s dicom data json
        kwargs =
      s.post_request client (s._orthanc_url ++ "/" ++ rest) data json
        kwargs) ∧
    (∃ rest, Orthanc.post_modalities_dicom_move client s dicom data json
        kwargs =
      s.post_request client (s._orthanc_url ++ "/" ++ rest) data json
        kwargs) ∧
    (∃ rest, Orthanc.post_modalities_dicom_query client s dicom data json
        kwargs =
      s.post_request client (s._orthanc_url ++ "/" ++ rest) data json
        kwargs) ∧
    (∃ rest, Orthanc.put_modalities_dicom client s dicom data json
        kwargs =
      s.put_request client (s._orthanc_url ++ "/" ++ rest) data json
        kwargs) ∧
    (∃ rest, Orthanc.post_queries_identifier_retrieve client s identifier
        data json kwargs =
      s.post_request client (s._orthanc_url ++ "/" ++ rest) data json
        kwargs) := by
  refine ⟨?_, ?_, ?_, ?_, ?_, ?_, ?_, ?_, ?_, ?_, ?_, ?_, ?_, ?_, ?_, ?_⟩
  · refine ⟨"patients", ?_⟩
    unfold Orthanc.get_patients
    have hl : ("/patients" : String) = "/" ++ "patients" := by decide
    have h : s._orthanc_url ++ "/patients" =
        s._orthanc_url ++ "/" ++ "patients" := by
      simp only [String.append_assoc, hl]
    rw [h]
  · refine ⟨"patients/" ++ identifier, ?_⟩
    unfold Orthanc.get_patients_identifier
    have hl : ("/patients/" : String) = "/" ++ "patients/" := by decide
    have h : s._orthanc_url ++ "/patients/" ++ identifier =
        s._orthanc_url ++ "/" ++ ("patients/" ++ identifier) := by
      simp only [String.append_assoc, hl]
    rw [h]
  · refine ⟨"patients/" ++ identifier, ?_⟩
    unfold Orthanc.delete_patients_identifier
    have hl : ("/patients/" : String) = "/" ++ "patients/" := by decide
    have h : s._orthanc_url ++ "/patients/" ++ identifier =
        s._orthanc_url ++ "/" ++ ("patients/" ++ identifier) := by
      simp only [String.append_assoc, hl]
    rw [h]
  · refine ⟨"instances/" ++ identifier ++ "/tags", ?_⟩
    unfold Orthanc.get_instances_identifier_tags
    have hl : ("/instances/" : String) = "/" ++ "instances/" := by decide
    have h : s._orthanc_url ++ "/instances/" ++ identifier ++ "/tags" =
        s._orthanc_url ++ "/" ++ ("instances/" ++ identifier ++ "/tags") := by
      simp only [String.append_assoc, hl]
    rw [h]
  · refine ⟨"instances/" ++ identifier ++ "/content/", ?_⟩
    unfold Orthanc.get_instances_identifier_content
    have hl : ("/instances/" : String) = "/" ++ "instances/" := by decide
    have h : s._orthanc_url ++ "/instances/" ++ identifier ++
          "/content/" =
        s._orthanc_url ++ "/" ++
          ("instances/" ++ identifier ++ "/content/") := by
      simp only [String.append_assoc, hl]
    rw [h]
  · refine ⟨"instances/" ++ identifier ++ "/content/" ++ group_element ++
      "/" ++ index ++ "/...", ?_⟩
    unfold Orthanc.get_instances_identifier_content_group_element_index
    have hl : ("/instances/" : String) = "/" ++ "instances/" := by decide
    have h : s._orthanc_url ++ "/instances/" ++ identifier ++
          "/content/" ++ group_element ++ "/" ++ index ++ "/..." =
        s._orthanc_url ++ "/" ++
          ("instances/" ++ identifier ++ "/content/" ++ group_element ++
            "/" ++ index ++ "/...") := by
      simp only [String.append_assoc, hl]
    rw [h]
  · refine ⟨resource_type ++ "/" ++ identifier ++ "/attachments", ?_⟩
    unfold Orthanc.get_attachments
    have h : s._orthanc_url ++ "/" ++ resource_type ++ "/" ++
          identifier ++ "/attachments" =
        s._orthanc_url ++ "/" ++
          (resource_type ++ "/" ++ identifier ++ "/attachments") := by
      simp only [String.append_assoc]
    rw [h]
  · refine ⟨resource_type ++ "/" ++ identifier ++ "/attachments/" ++
      name, ?_⟩
    unfold Orthanc.get_attachment_by_name
    have h : s._orthanc_url ++ "/" ++ resource_type ++ "/" ++
          identifier ++ "/attachments/" ++ name =
        s._orthanc_url ++ "/" ++
          (resource_type ++ "/" ++ identifier ++ "/attachments/" ++
            name) := by
      simp only [String.append_assoc]
    rw [h]
  · refine ⟨resource_type ++ "/" ++ identifier ++ "/metadata", ?_⟩
    unfold Orthanc.get_resource_type_identifier_metadata
    have h : s._orthanc_url ++ "/" ++ resource_type ++ "/" ++
          identifier ++ "/metadata" =
        s._orthanc_url ++ "/" ++
          (resource_type ++ "/" ++ identifier ++ "/metadata") := by
      simp only [String.append_assoc]
    rw [h]
  · refine ⟨"tools/find", ?_⟩
    unfold Orthanc.post_tools_find
    have hl : ("/tools/find" : String) = "/" ++ "tools/find" := by decide
    have h : s._orthanc_url ++ "/tools/find" =
        s._orthanc_url ++ "/" ++ "tools/find" := by
      simp only [String.append_assoc, hl]
    rw [h]
  · refine ⟨"tools/shutdown", ?_⟩
    unfold Orthanc.post_tools_shutdown
    have hl : ("/tools/shutdown" : String) = "/" ++ "tools/shutdown" := by
      decide
    have h : s._orthanc_url ++ "/tools/shutdown" =
        s._orthanc_url ++ "/" ++ "tools/shutdown" := by
      simp only [String.append_assoc, hl]
    rw [h]
  · refine ⟨"modalities/" ++ dicom ++ "/echo", ?_⟩
    unfold Orthanc.post_modalities_dicom_echo
    have hl : ("/modalities/" : String) = "/" ++ "modalities/" := by
      decide
    have h : s._orthanc_url ++ "/modalities/" ++ dicom ++ "/echo" =
        s._orthanc_url ++ "/" ++
          ("modalities/" ++ dicom ++ "/echo") := by
      simp only [String.append_assoc, hl]
    rw [h]
  · refine ⟨"modalities/" ++ dicom ++ "/move", ?_⟩
    unfold Orthanc.post_modalities_dicom_move
    have hl : ("/modalities/" : String) = "/" ++ "modalities/" := by
      decide
    have h : s._orthanc_url ++ "/modalities/" ++ dicom ++ "/move" =
        s._orthanc_url ++ "/" ++
          ("modalities/" ++ dicom ++ "/move") := by
      simp only [String.append_assoc, hl]
    rw [h]
  · refine ⟨"modalities/" ++ dicom ++ "/query", ?_⟩
    unfold Orthanc.post_modalities_dicom_query
    have hl : ("/modalities/" : String) = "/" ++ "modalities/" := by
      decide
    have h : s._orthanc_url ++ "/modalities/" ++ dicom ++ "/query" =
        s._orthanc_url ++ "/" ++
          ("modalities/" ++ dicom ++ "/query") := by
      simp only [String.append_assoc, hl]
    rw [h]
  · refine ⟨"modalities/" ++ dicom, ?_⟩
    unfold Orthanc.put_modalities_dicom
    have hl : ("/modalities/" : String) = "/" ++ "modalities/" := by
      decide
    have h : s._orthanc_url ++ "/modalities/" ++ dicom =
        s._orthanc_url ++ "/" ++ ("modalities/" ++ dicom) := by
      simp only [String.append_assoc, hl]
    rw [h]
  · refine ⟨"queries/" ++ identifier ++ "/retrieve", ?_⟩
    unfold Orthanc.post_queries_identifier_retrieve
    have hl : ("/queries/" : String) = "/" ++ "queries/" := by decide
    have h : s._orthanc_url ++ "/queries/" ++ identifier ++
          "/retrieve" =
        s._orthanc_url ++ "/" ++
          ("queries/" ++ identifier ++ "/retrieve") := by
      simp only [String.append_assoc, hl]
    rw [h]

/-- C8: the flag _credentials_are_set is true exactly when _credentials
holds a value; after construction both indicate unset; along any sequence
of operations only setup_credentials changes them, to the most recently
supplied username and password, no operation unsets them, and every
subsequent request carries the last installed credentials. -/
theorem C8_credentials_invariant (url : String) (ops : List Op)
    (route : String) :
    (Orthanc.new url)._credentials_are_set = false ∧
    (Orthanc.new url)._credentials = none ∧
    (stateAfter url ops)._credentials_are_set =
        (stateAfter url ops)._credentials.isSome ∧
    (stateAfter url ops)._credentials = lastSetup ops ∧
    (stateAfter url ops)._credentials_are_set = ops.any Op.isSetup ∧
    ((stateAfter url ops).get_request id route none []).ret.auth =
        lastSetup ops := by
  refine ⟨rfl, rfl, ?_, stateAfter_credentials url ops,
    stateAfter_flag url ops, ?_⟩
  · rw [stateAfter_flag, stateAfter_credentials, lastSetup_isSome]
  · simp [get_request_eq, requests.get, effectiveAuth_stateAfter]

end Pyorthanc
